import Mathlib

/-!
Verification of the authorization / folder-assignment / audit-event core of
the vault-storage service (sources: `src/db/models/cipher.rs`,
`src/db/models/event.rs`, `src/api/core/events.rs`).

Dates, uuids and IP addresses are opaque strings; nondeterministic effects
(uuid generation, the current time, store availability) are passed as
explicit parameters.  The relational store is a record of row lists, one
per table.
-/

namespace BW

/-- `chrono::NaiveDateTime` is opaque to this core; we embed it as a string. -/
abbrev NaiveDateTime := String

/-- Row of the `ciphers` table (struct `Cipher`, src/db/models/cipher.rs lines 13-35). -/
structure Cipher where
  uuid : String
  created_at : NaiveDateTime
  updated_at : NaiveDateTime
  user_uuid : Option String
  organization_uuid : Option String
  type_ : Int
  name : String
  notes : Option String
  fields : Option String
  data : String
  favorite : Bool
deriving Repr, DecidableEq

/-- Row of the `users_organizations` table.  Modelled from the spec: the
`UserOrganization` model is not under src/; the queries in
src/db/models/cipher.rs read exactly the columns `user_uuid`, `org_uuid`,
`access_all` and `type_` (the Membership of §4.1: user, org, role,
access-all flag). -/
structure UserOrganization where
  user_uuid : String
  org_uuid : String
  access_all : Bool
  type_ : Int
deriving Repr, DecidableEq

/-- Row of the `users_collections` table.  Modelled from the spec:
CollectionAssignment (user id, collection id). -/
structure UserCollection where
  user_uuid : String
  collection_uuid : String
deriving Repr, DecidableEq

/-- Row of the `ciphers_collections` table.  Modelled from the spec:
CipherCollectionLink (cipher id, collection id); the `CollectionCipher`
model is not under src/. -/
structure CollectionCipher where
  cipher_uuid : String
  collection_uuid : String
deriving Repr, DecidableEq

/-- Row of the `folders` table.  Modelled from the spec: Folder (unique id,
user id), personal and never shared; the `Folder` model is not under src/. -/
structure Folder where
  uuid : String
  user_uuid : String
deriving Repr, DecidableEq

/-- Row of the `folders_ciphers` table.  Modelled from the spec:
FolderCipherLink (folder id, cipher id); the `FolderCipher` model is not
under src/ (its constructor is called as `FolderCipher::new(&folder_uuid,
&cipher_uuid)` from src/db/models/cipher.rs). -/
structure FolderCipher where
  folder_uuid : String
  cipher_uuid : String
deriving Repr, DecidableEq

/-- Attachment metadata row.  Modelled from the spec: attachment metadata
belongs to one cipher; the `Attachment` model is not under src/. -/
structure Attachment where
  id : String
  cipher_uuid : String
deriving Repr, DecidableEq

/-- Row of the `event` table (struct `Event`, src/db/models/event.rs lines 18-32). -/
structure Event where
  uuid : String
  event_type : Int
  user_uuid : Option String
  org_uuid : Option String
  cipher_uuid : Option String
  collection_uuid : Option String
  group_uuid : Option String
  org_user_uuid : Option String
  act_user_uuid : Option String
  device_type : Option Int
  ip_address : Option String
  event_date : NaiveDateTime
deriving Repr, DecidableEq

/-- The abstract relational store (§2): one list of rows per table. -/
structure Db where
  ciphers : List Cipher
  users_organizations : List UserOrganization
  users_collections : List UserCollection
  ciphers_collections : List CollectionCipher
  folders : List Folder
  folders_ciphers : List FolderCipher
  attachments : List Attachment
  events : List Event
deriving Repr, DecidableEq

/-- `Cipher::new` (src/db/models/cipher.rs lines 39-59).  The fresh uuid and
the current time are effects of the source; they enter as explicit
parameters.  Both owner fields start as `None`. -/
def Cipher.new (uuid : String) (now : NaiveDateTime) (type_ : Int) (name : String) : Cipher :=
  { uuid := uuid
    created_at := now
    updated_at := now
    user_uuid := none
    organization_uuid := none
    type_ := type_
    favorite := false
    name := name
    notes := none
    fields := none
    data := "" }

/-- `Cipher::is_write_accessible_to_user` (src/db/models/cipher.rs lines
189-208): personal owner match, else an `access_all` membership row for the
cipher's org, else false. -/
def Cipher.is_write_accessible_to_user (c : Cipher) (user_uuid : String) (db : Db) : Bool :=
  match c.user_uuid with
  | some self_user_uuid => self_user_uuid == user_uuid
  | none =>
    match c.organization_uuid with
    | some org_uuid =>
      (db.users_organizations.find? (fun m =>
        m.org_uuid == org_uuid && m.user_uuid == user_uuid && m.access_all)).isSome
    | none => false

/-- `Cipher::is_accessible_to_user` (src/db/models/cipher.rs lines 210-213):
delegates to the write check unchanged. -/
def Cipher.is_accessible_to_user (c : Cipher) (user_uuid : String) (db : Db) : Bool :=
  c.is_write_accessible_to_user user_uuid db

/-- The type-alias key selection of `Cipher::to_json` (src/db/models/cipher.rs
lines 113-119).  The source `panic!("Wrong type")` on the wildcard arm is
embedded as `none`. -/
def Cipher.to_json_key (type_ : Int) : Option String :=
  match type_ with
  | 1 => some "Login"
  | 2 => some "SecureNote"
  | 3 => some "Card"
  | 4 => some "Identity"
  | _ => none

/-- `FolderCipher::new(folder_uuid, cipher_uuid)`.  Modelled from the spec:
the constructor lives in the missing folder model; it builds the link row for
"create link (user, cipher) → F" of §4.3. -/
def FolderCipher.new (folder_uuid : String) (cipher_uuid : String) : FolderCipher :=
  { folder_uuid := folder_uuid, cipher_uuid := cipher_uuid }

/-- `FolderCipher::save`.  Modelled from the spec: inserts the link row into
the store (store available). -/
def FolderCipher.save (fc : FolderCipher) (db : Db) : Db :=
  { db with folders_ciphers := fc :: db.folders_ciphers }

/-- `FolderCipher::delete`.  Modelled from the spec: removes the link row(s)
with this row's (folder id, cipher id) key from the store (store available). -/
def FolderCipher.delete (fc : FolderCipher) (db : Db) : Db :=
  { db with folders_ciphers := db.folders_ciphers.filter (fun r =>
      !(r.folder_uuid == fc.folder_uuid && r.cipher_uuid == fc.cipher_uuid)) }

/-- `FolderCipher::find_by_folder_and_cipher`.  Modelled from the spec: looks
up the (at most one) link row with the given folder id and cipher id. -/
def FolderCipher.find_by_folder_and_cipher (folder_uuid : String) (cipher_uuid : String)
    (db : Db) : Option FolderCipher :=
  db.folders_ciphers.find? (fun fc =>
    fc.folder_uuid == folder_uuid && fc.cipher_uuid == cipher_uuid)

/-- `Cipher::get_folder_uuid` (src/db/models/cipher.rs lines 215-221):
`folders_ciphers` joined with `folders`, filtered on the folder's owner and
this cipher, selecting the folder uuid of the first row. -/
def Cipher.get_folder_uuid (c : Cipher) (user_uuid : String) (db : Db) : Option String :=
  (db.folders_ciphers.find? (fun fc =>
      fc.cipher_uuid == c.uuid &&
      db.folders.any (fun f => f.uuid == fc.folder_uuid && f.user_uuid == user_uuid))).map
    (fun fc => fc.folder_uuid)

/-- The `Some(new_folder)` arm of the `Some(current_folder)` branch of
`Cipher::move_to_folder` when the folders differ (src/db/models/cipher.rs
lines 165-173): look up the old link, delete it when found ("Weird, but
nothing to do" when not), then create the new link. -/
def Cipher.replaceFolderLink (c : Cipher) (current_folder : String) (new_folder : String)
    (db : Db) : Except String Db :=
  let db2 :=
    match FolderCipher.find_by_folder_and_cipher current_folder c.uuid db with
    | some fc => FolderCipher.delete fc db
    | none => db
  Except.ok (FolderCipher.save (FolderCipher.new new_folder c.uuid) db2)

/-- The `None` arm of the `Some(current_folder)` branch of
`Cipher::move_to_folder` (src/db/models/cipher.rs lines 176-183): delete the
old link, erroring when no link row is found. -/
def Cipher.removeFolderLink (c : Cipher) (current_folder : String) (db : Db) :
    Except String Db :=
  match FolderCipher.find_by_folder_and_cipher current_folder c.uuid db with
  | some fc => Except.ok (FolderCipher.delete fc db)
  | none => Except.error "Couldn't move from previous folder"

/-- `Cipher::move_to_folder` (src/db/models/cipher.rs lines 148-187). -/
def Cipher.move_to_folder (c : Cipher) (folder_uuid : Option String) (user_uuid : String)
    (db : Db) : Except String Db :=
  match c.get_folder_uuid user_uuid db with
  | none =>
    match folder_uuid with
    | some new_folder => Except.ok (FolderCipher.save (FolderCipher.new new_folder c.uuid) db)
    | none => Except.ok db
  | some current_folder =>
    match folder_uuid with
    | some new_folder =>
      if current_folder == new_folder then Except.ok db
      else c.replaceFolderLink current_folder new_folder db
    | none => c.removeFolderLink current_folder db

/-- `FolderCipher::delete_all_by_cipher`.  Modelled from the spec: deletes
all FolderCipherLink rows for this cipher across all users; `ok` injects the
availability of the store (§7 StoreFailure), a failing call modifies nothing. -/
def FolderCipher.delete_all_by_cipher (cipher_uuid : String) (ok : Bool) (db : Db) :
    Except String Db :=
  if ok then
    Except.ok { db with folders_ciphers :=
      db.folders_ciphers.filter (fun fc => !(fc.cipher_uuid == cipher_uuid)) }
  else Except.error "store failure"

/-- `CollectionCipher::delete_all_by_cipher`.  Modelled from the spec:
deletes all CipherCollectionLink rows for this cipher; `ok` injects store
availability. -/
def CollectionCipher.delete_all_by_cipher (cipher_uuid : String) (ok : Bool) (db : Db) :
    Except String Db :=
  if ok then
    Except.ok { db with ciphers_collections :=
      db.ciphers_collections.filter (fun cc => !(cc.cipher_uuid == cipher_uuid)) }
  else Except.error "store failure"

/-- `Attachment::delete_all_by_cipher`.  Modelled from the spec: deletes all
attachment metadata for this cipher; `ok` injects store availability. -/
def Attachment.delete_all_by_cipher (cipher_uuid : String) (ok : Bool) (db : Db) :
    Except String Db :=
  if ok then
    Except.ok { db with attachments :=
      db.attachments.filter (fun a => !(a.cipher_uuid == cipher_uuid)) }
  else Except.error "store failure"

/-- `Cipher::delete` (src/db/models/cipher.rs lines 136-146): the ordered
cascade folder links → collection links → attachments → cipher row, each
step short-circuiting on error exactly as the source's `?` operator does.
The error carries the store state reached when the failing step was
attempted, so post-failure state is observable. -/
def Cipher.delete (c : Cipher) (okFolders okCollections okAttachments okCipher : Bool)
    (db : Db) : Except (String × Db) Db :=
  match FolderCipher.delete_all_by_cipher c.uuid okFolders db with
  | Except.error e => Except.error (e, db)
  | Except.ok db1 =>
    match CollectionCipher.delete_all_by_cipher c.uuid okCollections db1 with
    | Except.error e => Except.error (e, db1)
    | Except.ok db2 =>
      match Attachment.delete_all_by_cipher c.uuid okAttachments db2 with
      | Except.error e => Except.error (e, db2)
      | Except.ok db3 =>
        if okCipher then
          Except.ok { db3 with ciphers := db3.ciphers.filter (fun x => !(x.uuid == c.uuid)) }
        else Except.error ("store failure", db3)

/-- `Cipher::find_by_uuid` (src/db/models/cipher.rs lines 223-227). -/
def Cipher.find_by_uuid (uuid : String) (db : Db) : Option Cipher :=
  db.ciphers.find? (fun c => c.uuid == uuid)

/-- `util::parse_date`.  Modelled from the spec: the date parser is not
under src/; dates are opaque "ISO-8601-like date strings" (§6), so parsing
is the identity embedding of the string. -/
def parse_date (date : String) : NaiveDateTime :=
  date

/-- `Event::new` (src/db/models/event.rs lines 88-111).  The generated uuid
and the current time enter as explicit parameters; `event_date` defaults to
`now` when absent. -/
def Event.new (uuid : String) (now : NaiveDateTime) (event_type : Int)
    (event_date : Option NaiveDateTime) : Event :=
  { uuid := uuid
    event_type := event_type
    user_uuid := none
    org_uuid := none
    cipher_uuid := none
    collection_uuid := none
    group_uuid := none
    org_user_uuid := none
    act_user_uuid := none
    device_type := none
    ip_address := none
    event_date :=
      match event_date with
      | some d => d
      | none => now }

/-- `Event::save` (src/db/models/event.rs lines 137-155): an upsert keyed by
the primary key `uuid` (`replace_into` / `on_conflict do_update`): any stored
row with the same uuid is replaced by the new row.  `ok` injects store
availability. -/
def Event.save (e : Event) (ok : Bool) (db : Db) : Except String Db :=
  if ok then
    Except.ok { db with events := (db.events.filter (fun ev => !(ev.uuid == e.uuid))) ++ [e] }
  else Except.error "Error saving event"

/-- One submitted occurrence of the event-collect batch (struct
`EventCollection`, src/api/core/events.rs lines 87-94). -/
structure EventCollection where
  type_ : Int
  Date : String
  CipherId : Option String
deriving Repr, DecidableEq

/-- `new_cipher_event` (src/api/core/events.rs lines 110-125): build the
event, enrich it from the cipher when found (else keep the literal cipher
id), stamp ip / acting user / device type, then save. -/
def new_cipher_event (cipher_uuid : String) (event_type : Int)
    (event_date : NaiveDateTime) (user_uuid : String) (device_type : Int) (ip : String)
    (gen_uuid : String) (now : NaiveDateTime) (ok : Bool) (db : Db) : Except String Db :=
  let event := Event.new gen_uuid now event_type (some event_date)
  let event :=
    match Cipher.find_by_uuid cipher_uuid db with
    | some cipher =>
      { event with
          org_uuid := cipher.organization_uuid
          cipher_uuid := some cipher.uuid
          user_uuid := cipher.user_uuid }
    | none => { event with cipher_uuid := some cipher_uuid }
  let event :=
    { event with
        ip_address := some ip
        act_user_uuid := some user_uuid
        device_type := some device_type }
  Event.save event ok db

/-- The loop body of `post_events_collect` (src/api/core/events.rs lines
100-105), indexed by the position `n` of the current item so that the uuid
supply `gen` and the per-call store availability `ok` are deterministic.
Items without a `CipherId` are skipped; an `Err` from `new_cipher_event`
aborts the whole loop via the source's `?`. -/
def collectGo (user_uuid : String) (device_type : Int) (ip : String)
    (gen : Nat → String) (now : NaiveDateTime) (ok : Nat → Bool) :
    List EventCollection → Nat → Db → Except String Db
  | [], _, db => Except.ok db
  | d :: rest, n, db =>
    match d.CipherId with
    | some cipher_uuid =>
      match new_cipher_event cipher_uuid d.type_ (parse_date d.Date) user_uuid
          device_type ip (gen n) now (ok n) db with
      | Except.error e => Except.error e
      | Except.ok db' => collectGo user_uuid device_type ip gen now ok rest (n + 1) db'
    | none => collectGo user_uuid device_type ip gen now ok rest (n + 1) db

/-- `post_events_collect` (src/api/core/events.rs lines 98-108). -/
def post_events_collect (items : List EventCollection) (user_uuid : String)
    (device_type : Int) (ip : String) (gen : Nat → String) (now : NaiveDateTime)
    (ok : Nat → Bool) (db : Db) : Except String Db :=
  collectGo user_uuid device_type ip gen now ok items 0 db

/-! Concrete fixtures used by witnesses and counterexamples. -/

/-- The empty store. -/
def dbEmpty : Db :=
  { ciphers := [], users_organizations := [], users_collections := [],
    ciphers_collections := [], folders := [], folders_ciphers := [],
    attachments := [], events := [] }

/-- A personally owned cipher. -/
def cPersonal : Cipher :=
  { Cipher.new "c1" "t0" 1 "name1" with user_uuid := some "u1" }

/-- An organization-owned cipher. -/
def cOrg : Cipher :=
  { Cipher.new "c2" "t0" 1 "name2" with organization_uuid := some "o1" }

/-- A store where user u2 is a plain member of org o1 without blanket access
but with an explicit assignment to collection k1 containing cOrg. -/
def dbOrg : Db :=
  { dbEmpty with
      ciphers := [cOrg]
      users_organizations := [{ user_uuid := "u2", org_uuid := "o1",
                                access_all := false, type_ := 2 }]
      users_collections := [{ user_uuid := "u2", collection_uuid := "k1" }]
      ciphers_collections := [{ cipher_uuid := "c2", collection_uuid := "k1" }] }

/-- A store holding cPersonal together with one folder link, one collection
link and one attachment for it. -/
def dbFull : Db :=
  { dbEmpty with
      ciphers := [cPersonal]
      folders := [{ uuid := "f1", user_uuid := "u1" }]
      folders_ciphers := [{ folder_uuid := "f1", cipher_uuid := "c1" }]
      ciphers_collections := [{ cipher_uuid := "c1", collection_uuid := "k1" }]
      attachments := [{ id := "a1", cipher_uuid := "c1" }] }

/-- Two events sharing a uuid with different content. -/
def evFirst : Event :=
  { uuid := "e1", event_type := 1100, user_uuid := none, org_uuid := none,
    cipher_uuid := some "c1", collection_uuid := none, group_uuid := none,
    org_user_uuid := none, act_user_uuid := some "u1", device_type := some 1,
    ip_address := some "ip1", event_date := "d1" }

/-- Re-submission of `evFirst`: same uuid, later content. -/
def evSecond : Event :=
  { evFirst with event_date := "d2", ip_address := some "ip2" }

/-! Theorems. -/

/-- C7 counterexample: `Cipher::new` succeeds while setting NEITHER owner
field, so the claim that construction with neither owner set fails is false
at the concrete input (type 1, name "name1"). -/
theorem cipher_new_owner_cex :
    (Cipher.new "c1" "t0" 1 "name1").user_uuid = none ∧
    (Cipher.new "c1" "t0" 1 "name1").organization_uuid = none :=
  ⟨rfl, rfl⟩

/-- C7 (amended): every cipher returned by `Cipher::new` has neither the
personal owner nor the organization owner set, and construction never fails;
ownership is assigned after construction by callers. -/
theorem cipher_new_no_owner (uuid now : String) (type_ : Int) (name : String) :
    (Cipher.new uuid now type_ name).user_uuid = none ∧
    (Cipher.new uuid now type_ name).organization_uuid = none :=
  ⟨rfl, rfl⟩

/-- C9: `is_accessible_to_user` (canRead) returns exactly the value of
`is_write_accessible_to_user` (canWrite) for every user, cipher and store. -/
theorem canRead_eq_canWrite (c : Cipher) (user_uuid : String) (db : Db) :
    c.is_accessible_to_user user_uuid db = c.is_write_accessible_to_user user_uuid db :=
  rfl

/-- C10: the type-alias key selection of `Cipher::to_json` reaches the
`panic!` arm (embedded as `none`) exactly when the cipher's type code lies
outside {1, 2, 3, 4}; for codes in that set the panic branch is unreachable. -/
theorem to_json_key_partial (c : Cipher) :
    (Cipher.to_json_key c.type_).isSome = true ↔
      (c.type_ = 1 ∨ c.type_ = 2 ∨ c.type_ = 3 ∨ c.type_ = 4) := by
  unfold Cipher.to_json_key
  split <;> simp_all

/-- C8: `Event::save` is an idempotent upsert keyed by the event uuid: with
the store available, saving twice with the same uuid succeeds both times and
leaves exactly one stored record, namely the latest one. -/
theorem event_save_idempotent_upsert (e1 e2 : Event) (db : Db) (h : e1.uuid = e2.uuid) :
    ∃ db1 db2,
      Event.save e1 true db = Except.ok db1 ∧
      Event.save e2 true db1 = Except.ok db2 ∧
      db2.events.filter (fun ev => ev.uuid == e2.uuid) = [e2] := by
  refine ⟨_, _, rfl, rfl, ?_⟩
  show ((((db.events.filter (fun ev => !(ev.uuid == e1.uuid))) ++ [e1]).filter
      (fun ev => !(ev.uuid == e2.uuid))) ++ [e2]).filter (fun ev => ev.uuid == e2.uuid) = [e2]
  simp [h, List.filter_append, List.filter_filter]

/-- C8 witness: re-submitting `evSecond` after `evFirst` (same uuid "e1")
into the empty store stores exactly the one record `evSecond`. -/
theorem event_save_idempotent_upsert_witness :
    ∃ db1 db2,
      Event.save evFirst true dbEmpty = Except.ok db1 ∧
      Event.save evSecond true db1 = Except.ok db2 ∧
      db2.events.filter (fun ev => ev.uuid == evSecond.uuid) = [evSecond] :=
  event_save_idempotent_upsert evFirst evSecond dbEmpty rfl

/-- C1: write access to a personally owned cipher holds exactly for the
owner; write access to an organization-owned cipher holds exactly when the
user's membership row for that org carries the access-all flag; and the
check never reads the collection-assignment or cipher-collection tables, so
an explicit collection assignment cannot grant write access. -/
theorem canWrite_spec (c : Cipher) (u : String) (db : Db) :
    (∀ o, c.user_uuid = some o → c.is_write_accessible_to_user u db = (o == u)) ∧
    (c.user_uuid = none → ∀ org, c.organization_uuid = some org →
      (c.is_write_accessible_to_user u db = true ↔
        ∃ m, m ∈ db.users_organizations ∧ m.user_uuid = u ∧ m.org_uuid = org ∧
          m.access_all = true)) ∧
    (∀ uc cc, c.is_write_accessible_to_user u
        { db with users_collections := uc, ciphers_collections := cc } =
      c.is_write_accessible_to_user u db) := by
  refine ⟨?_, ?_, ?_⟩
  · intro o ho
    simp [Cipher.is_write_accessible_to_user, ho]
  · intro hnone org horg
    simp only [Cipher.is_write_accessible_to_user, hnone, horg, List.find?_isSome,
      Bool.and_eq_true, beq_iff_eq]
    constructor
    · rintro ⟨m, hm, ⟨h1, h2⟩, h3⟩
      exact ⟨m, hm, h2, h1, h3⟩
    · rintro ⟨m, hm, h1, h2, h3⟩
      exact ⟨m, hm, ⟨h2, h1⟩, h3⟩
  · intro uc cc
    rfl

/-- C1 witness: the owner u1 may write the personal cipher, and the plain
member u2 of org o1 — who holds an explicit assignment to collection k1
containing the org cipher — may not write it because no access-all
membership row exists. -/
theorem canWrite_spec_witness :
    cPersonal.is_write_accessible_to_user "u1" dbEmpty = ("u1" == "u1") ∧
    (cOrg.is_write_accessible_to_user "u2" dbOrg = true ↔
      ∃ m, m ∈ dbOrg.users_organizations ∧ m.user_uuid = "u2" ∧ m.org_uuid = "o1" ∧
        m.access_all = true) :=
  ⟨(canWrite_spec cPersonal "u1" dbEmpty).1 "u1" rfl,
   (canWrite_spec cOrg "u2" dbOrg).2.1 rfl "o1" rfl⟩

/-- When the current-folder read reports folder `F` for this user and
cipher, the direct link lookup by (F, cipher) finds the link row. -/
theorem get_folder_uuid_find (c : Cipher) (u F : String) (db : Db)
    (h : c.get_folder_uuid u db = some F) :
    FolderCipher.find_by_folder_and_cipher F c.uuid db = some ⟨F, c.uuid⟩ := by
  unfold Cipher.get_folder_uuid at h
  rw [Option.map_eq_some'] at h
  obtain ⟨r, hr, hF⟩ := h
  have hp := List.find?_some hr
  have hmem := List.mem_of_find?_eq_some hr
  simp only [Bool.and_eq_true, beq_iff_eq] at hp
  unfold FolderCipher.find_by_folder_and_cipher
  cases hfind : db.folders_ciphers.find? (fun fc =>
      fc.folder_uuid == F && fc.cipher_uuid == c.uuid) with
  | none =>
    rw [List.find?_eq_none] at hfind
    have hnot := hfind r hmem
    simp only [Bool.and_eq_true, beq_iff_eq, not_and] at hnot
    exact absurd hp.1 (hnot hF)
  | some r2 =>
    have hp2 := List.find?_some hfind
    simp only [Bool.and_eq_true, beq_iff_eq] at hp2
    cases r2
    simp_all

/-- C2: `Cipher::move_to_folder` realizes the §4.3 transition table:
none→none is a no-op success; none→F creates exactly one link row; F→F is a
no-op success; F→G deletes the old link and creates the new one; F→none
deletes the link; and the removal branch reports the inconsistent-state
error when the expected link row is absent. -/
theorem move_to_folder_transition_table (c : Cipher) (u : String) (db : Db) :
    (c.get_folder_uuid u db = none → c.move_to_folder none u db = Except.ok db) ∧
    (∀ F, c.get_folder_uuid u db = none →
      c.move_to_folder (some F) u db =
        Except.ok { db with folders_ciphers := ⟨F, c.uuid⟩ :: db.folders_ciphers }) ∧
    (∀ F, c.get_folder_uuid u db = some F →
      c.move_to_folder (some F) u db = Except.ok db) ∧
    (∀ F G, c.get_folder_uuid u db = some F → F ≠ G →
      c.move_to_folder (some G) u db =
        Except.ok { db with folders_ciphers :=
          ⟨G, c.uuid⟩ :: db.folders_ciphers.filter (fun r =>
            !(r.folder_uuid == F && r.cipher_uuid == c.uuid)) }) ∧
    (∀ F, c.get_folder_uuid u db = some F →
      c.move_to_folder none u db =
        Except.ok { db with folders_ciphers := db.folders_ciphers.filter (fun r =>
          !(r.folder_uuid == F && r.cipher_uuid == c.uuid)) }) ∧
    (∀ F, FolderCipher.find_by_folder_and_cipher F c.uuid db = none →
      c.removeFolderLink F db = Except.error "Couldn't move from previous folder") := by
  refine ⟨?_, ?_, ?_, ?_, ?_, ?_⟩
  · intro h
    simp [Cipher.move_to_folder, h]
  · intro F h
    simp [Cipher.move_to_folder, h, FolderCipher.save, FolderCipher.new]
  · intro F h
    simp [Cipher.move_to_folder, h]
  · intro F G h hne
    have hfind := get_folder_uuid_find c u F db h
    simp only [Cipher.move_to_folder, h, beq_iff_eq, if_neg hne]
    simp [Cipher.replaceFolderLink, hfind, FolderCipher.delete, FolderCipher.save,
      FolderCipher.new]
  · intro F h
    have hfind := get_folder_uuid_find c u F db h
    simp only [Cipher.move_to_folder, h]
    simp [Cipher.removeFolderLink, hfind, FolderCipher.delete]
  · intro F h
    simp [Cipher.removeFolderLink, h]

/-- C2 witness: with no existing link, moving the personal cipher into
folder f1 creates exactly that one link row. -/
theorem move_to_folder_transition_table_witness :
    cPersonal.move_to_folder (some "f1") "u1" dbEmpty =
      Except.ok { dbEmpty with folders_ciphers := [⟨"f1", cPersonal.uuid⟩] } :=
  (move_to_folder_transition_table cPersonal "u1" dbEmpty).2.1 "f1" rfl

/-- C3 counterexample: in the F→G arm, when the old link row is absent the
code returns success and creates the new link — it does NOT report an
inconsistent-state failure, contrary to the claim, already at this concrete
input (empty store, current folder f1, target folder f2). -/
theorem replaceFolderLink_missing_row_cex :
    FolderCipher.find_by_folder_and_cipher "f1" cPersonal.uuid dbEmpty = none ∧
    cPersonal.replaceFolderLink "f1" "f2" dbEmpty =
      Except.ok { dbEmpty with folders_ciphers := [⟨"f2", cPersonal.uuid⟩] } :=
  ⟨rfl, rfl⟩

/-- C3 (amended): in the F→G transition, if the delete of the old link finds
no link row, the operation silently treats the delete as a no-op success
(the source comment reads "Weird, but nothing to do") and still creates the
new link; no inconsistent-state failure is reported in this arm. -/
theorem replaceFolderLink_missing_row_creates (c : Cipher) (current new_folder : String)
    (db : Db) (h : FolderCipher.find_by_folder_and_cipher current c.uuid db = none) :
    c.replaceFolderLink current new_folder db =
      Except.ok { db with folders_ciphers := ⟨new_folder, c.uuid⟩ :: db.folders_ciphers } := by
  simp [Cipher.replaceFolderLink, h, FolderCipher.save, FolderCipher.new]

/-- C3 witness: the amended behavior at the concrete input of the
counterexample: the create still happens after the silent no-op delete. -/
theorem replaceFolderLink_missing_row_creates_witness :
    cPersonal.replaceFolderLink "f1" "f2" dbEmpty =
      Except.ok { dbEmpty with folders_ciphers := [⟨"f2", cPersonal.uuid⟩] } :=
  replaceFolderLink_missing_row_creates cPersonal "f1" "f2" dbEmpty rfl

/-- C6: `Cipher::delete` removes folder links, collection links and
attachment metadata before the cipher row; every failure aborts before the
later steps run (an error outcome always leaves the ciphers table
untouched); failure of the attachment step leaves exactly the first two
tables cleaned and the cipher row present; failure of the first step leaves
the store untouched. -/
theorem cipher_delete_spec (c : Cipher) (db : Db)
    (okFolders okCollections okAttachments okCipher : Bool) :
    (Cipher.delete c true true true true db =
      Except.ok { db with
        folders_ciphers := db.folders_ciphers.filter (fun fc => !(fc.cipher_uuid == c.uuid))
        ciphers_collections :=
          db.ciphers_collections.filter (fun cc => !(cc.cipher_uuid == c.uuid))
        attachments := db.attachments.filter (fun a => !(a.cipher_uuid == c.uuid))
        ciphers := db.ciphers.filter (fun x => !(x.uuid == c.uuid)) }) ∧
    (∀ e db2, Cipher.delete c okFolders okCollections okAttachments okCipher db =
        Except.error (e, db2) → db2.ciphers = db.ciphers) ∧
    (okFolders = true → okCollections = true → okAttachments = false →
      Cipher.delete c okFolders okCollections okAttachments okCipher db =
        Except.error ("store failure", { db with
          folders_ciphers := db.folders_ciphers.filter (fun fc => !(fc.cipher_uuid == c.uuid))
          ciphers_collections :=
            db.ciphers_collections.filter (fun cc => !(cc.cipher_uuid == c.uuid)) })) ∧
    (okFolders = true → okCollections = false →
      Cipher.delete c okFolders okCollections okAttachments okCipher db =
        Except.error ("store failure", { db with
          folders_ciphers :=
            db.folders_ciphers.filter (fun fc => !(fc.cipher_uuid == c.uuid)) })) ∧
    (okFolders = false →
      Cipher.delete c okFolders okCollections okAttachments okCipher db =
        Except.error ("store failure", db)) := by
  refine ⟨rfl, ?_, ?_, ?_, ?_⟩
  · intro e db2 h
    cases okFolders <;> cases okCollections <;> cases okAttachments <;> cases okCipher <;>
      simp [Cipher.delete, FolderCipher.delete_all_by_cipher,
        CollectionCipher.delete_all_by_cipher, Attachment.delete_all_by_cipher] at h <;>
      simp [← h.2]
  · rintro rfl rfl rfl
    rfl
  · rintro rfl rfl
    rfl
  · rintro rfl
    rfl

/-- C6 witness: deleting the personal cipher from the full store while the
attachment step fails stops before the cipher row: the error state keeps
the attachment row and the cipher row. -/
theorem cipher_delete_spec_witness :
    Cipher.delete cPersonal true true false true dbFull =
      Except.error ("store failure", { dbFull with
        folders_ciphers :=
          dbFull.folders_ciphers.filter (fun fc => !(fc.cipher_uuid == cPersonal.uuid))
        ciphers_collections :=
          dbFull.ciphers_collections.filter (fun cc => !(cc.cipher_uuid == cPersonal.uuid)) }) :=
  (cipher_delete_spec cPersonal dbFull true true false true).2.2.1 rfl rfl rfl

/-- C4 counterexample: a batch whose only occurrence carries no cipher id
leaves the event store untouched — no event with the caller-supplied fields
is recorded, contrary to the claim, at this concrete input. -/
theorem post_events_collect_absent_cipher_cex :
    post_events_collect [{ type_ := 1107, Date := "2023-01-01", CipherId := none }]
        "u1" 1 "ip1" (fun _ => "e1") "now0" (fun _ => true) dbEmpty =
      Except.ok dbEmpty ∧
    dbEmpty.events = [] :=
  ⟨rfl, rfl⟩

/-- C4 (amended): with the store available, `new_cipher_event` persists —
when the cipher is found — an event whose org/cipher/user ids are
overwritten from the cipher's own ownership fields; when the cipher is not
found it persists the literal cipher id with org/user context unset; in both
cases the acting-user id, device type and source IP are stamped from the
caller context.  When an occurrence carries no cipher id,
`post_events_collect` skips it entirely and records nothing. -/
theorem new_cipher_event_spec (cipher_uuid : String) (event_type : Int)
    (event_date : NaiveDateTime) (user_uuid : String) (device_type : Int)
    (ip gen now : String) (db : Db) :
    (∀ cipher, Cipher.find_by_uuid cipher_uuid db = some cipher →
      new_cipher_event cipher_uuid event_type event_date user_uuid device_type ip gen now
          true db =
        Except.ok { db with events :=
          (db.events.filter (fun ev => !(ev.uuid == gen))) ++
          [{ uuid := gen, event_type := event_type, user_uuid := cipher.user_uuid,
             org_uuid := cipher.organization_uuid, cipher_uuid := some cipher.uuid,
             collection_uuid := none, group_uuid := none, org_user_uuid := none,
             act_user_uuid := some user_uuid, device_type := some device_type,
             ip_address := some ip, event_date := event_date }] }) ∧
    (Cipher.find_by_uuid cipher_uuid db = none →
      new_cipher_event cipher_uuid event_type event_date user_uuid device_type ip gen now
          true db =
        Except.ok { db with events :=
          (db.events.filter (fun ev => !(ev.uuid == gen))) ++
          [{ uuid := gen, event_type := event_type, user_uuid := none,
             org_uuid := none, cipher_uuid := some cipher_uuid,
             collection_uuid := none, group_uuid := none, org_user_uuid := none,
             act_user_uuid := some user_uuid, device_type := some device_type,
             ip_address := some ip, event_date := event_date }] }) ∧
    (∀ (gen2 : Nat → String) (ok2 : Nat → Bool) (d : EventCollection)
        (rest : List EventCollection) (n : Nat) (db2 : Db), d.CipherId = none →
      collectGo user_uuid device_type ip gen2 now ok2 (d :: rest) n db2 =
        collectGo user_uuid device_type ip gen2 now ok2 rest (n + 1) db2) := by
  refine ⟨?_, ?_, ?_⟩
  · intro cipher h
    simp [new_cipher_event, h, Event.new, Event.save]
  · intro h
    simp [new_cipher_event, h, Event.new, Event.save]
  · intro gen2 ok2 d rest n db2 h
    simp [collectGo, h]

/-- C4 witness: recording against the store that holds the org cipher c2
stamps the event with the cipher's org o1, its id, no personal owner, and
the caller context (acting user u9, device 7, ip ip9). -/
theorem new_cipher_event_spec_witness :
    new_cipher_event "c2" 1107 "d7" "u9" 7 "ip9" "e7" "now0" true dbOrg =
      Except.ok { dbOrg with events :=
        (dbOrg.events.filter (fun ev => !(ev.uuid == "e7"))) ++
        [{ uuid := "e7", event_type := 1107, user_uuid := cOrg.user_uuid,
           org_uuid := cOrg.organization_uuid, cipher_uuid := some cOrg.uuid,
           collection_uuid := none, group_uuid := none, org_user_uuid := none,
           act_user_uuid := some "u9", device_type := some 7,
           ip_address := some "ip9", event_date := "d7" }] } :=
  (new_cipher_event_spec "c2" 1107 "d7" "u9" 7 "ip9" "e7" "now0" dbOrg).1 cOrg rfl

/-- With the store available for every call, the collect loop never fails. -/
theorem collectGo_all_ok_isOk (user_uuid : String) (device_type : Int) (ip : String)
    (gen : Nat → String) (now : NaiveDateTime) :
    ∀ (items : List EventCollection) (n : Nat) (db : Db),
      (collectGo user_uuid device_type ip gen now (fun _ => true) items n db).isOk = true := by
  intro items
  induction items with
  | nil => intro n db; rfl
  | cons d rest ih =>
    intro n db
    cases h : d.CipherId with
    | none => simpa [collectGo, h] using ih (n + 1) db
    | some cu =>
      simpa [collectGo, h, new_cipher_event, Event.save] using ih (n + 1) _

/-- If every store call before position `i` succeeds and the call for the
recording item at position `i` fails, the whole loop returns an error. -/
theorem collectGo_store_failure (user_uuid : String) (device_type : Int) (ip : String)
    (gen : Nat → String) (now : NaiveDateTime) (ok : Nat → Bool) :
    ∀ (items : List EventCollection) (i : Nat) (n : Nat) (db : Db) (d : EventCollection),
      items[i]? = some d → d.CipherId.isSome = true →
      (∀ k, k < i → ok (n + k) = true) → ok (n + i) = false →
      ∃ e, collectGo user_uuid device_type ip gen now ok items n db = Except.error e := by
  intro items
  induction items with
  | nil =>
    intro i n db d hget
    simp at hget
  | cons hd rest ih =>
    intro i n db d hget hsome hpre hfail
    cases i with
    | zero =>
      simp only [List.getElem?_cons_zero, Option.some.injEq] at hget
      subst hget
      rw [Option.isSome_iff_exists] at hsome
      obtain ⟨cu, hcu⟩ := hsome
      have hokn : ok n = false := by simpa using hfail
      refine ⟨"Error saving event", ?_⟩
      simp [collectGo, hcu, new_cipher_event, Event.save, hokn]
    | succ j =>
      simp only [List.getElem?_cons_succ] at hget
      have hpre2 : ∀ k, k < j → ok (n + 1 + k) = true := by
        intro k hk
        have := hpre (k + 1) (by omega)
        simpa [Nat.add_assoc, Nat.add_comm 1 k] using this
      have hfail2 : ok (n + 1 + j) = false := by
        have : n + 1 + j = n + (j + 1) := by omega
        rw [this]
        exact hfail
      cases hcip : hd.CipherId with
      | none =>
        obtain ⟨e, he⟩ := ih j (n + 1) db d hget hsome hpre2 hfail2
        exact ⟨e, by simpa [collectGo, hcip] using he⟩
      | some cu =>
        have hokn : ok n = true := by simpa using hpre 0 (by omega)
        obtain ⟨e, he⟩ := ih j (n + 1) _ d hget hsome hpre2 hfail2
        exact ⟨e, by simpa [collectGo, hcip, new_cipher_event, Event.save, hokn] using he⟩

/-- C5: batch ingestion processes the submitted occurrences independently:
with the store available for every call the whole batch succeeds (no
occurrence can fail any other), and when the store is unavailable for the
save of a recording occurrence — the only way an item can fail — the whole
batch operation returns an error. -/
theorem post_events_collect_spec (items : List EventCollection) (user_uuid : String)
    (device_type : Int) (ip : String) (gen : Nat → String) (now : NaiveDateTime)
    (db : Db) :
    ((post_events_collect items user_uuid device_type ip gen now (fun _ => true) db).isOk
      = true) ∧
    (∀ (ok : Nat → Bool) (i : Nat) (d : EventCollection), items[i]? = some d →
      d.CipherId.isSome = true → (∀ k, k < i → ok k = true) → ok i = false →
      ∃ e, post_events_collect items user_uuid device_type ip gen now ok db =
        Except.error e) := by
  constructor
  · exact collectGo_all_ok_isOk user_uuid device_type ip gen now items 0 db
  · intro ok i d h1 h2 h3 h4
    exact collectGo_store_failure user_uuid device_type ip gen now ok items i 0 db d h1 h2
      (by simpa using h3) (by simpa using h4)

/-- C5 witness: a three-occurrence batch whose middle occurrence carries no
cipher id succeeds whole with the store available, and the same batch fails
whole when the store rejects the very first save. -/
theorem post_events_collect_spec_witness :
    ((post_events_collect
        [{ type_ := 1107, Date := "d1", CipherId := some "c1" },
         { type_ := 1107, Date := "d2", CipherId := none },
         { type_ := 1107, Date := "d3", CipherId := some "c2" }]
        "u1" 1 "ip1" (fun _ => "e1") "now0" (fun _ => true) dbOrg).isOk = true) ∧
    (∃ e, post_events_collect
        [{ type_ := 1107, Date := "d1", CipherId := some "c1" },
         { type_ := 1107, Date := "d2", CipherId := none },
         { type_ := 1107, Date := "d3", CipherId := some "c2" }]
        "u1" 1 "ip1" (fun _ => "e1") "now0" (fun _ => false) dbOrg = Except.error e) :=
  ⟨(post_events_collect_spec _ "u1" 1 "ip1" (fun _ => "e1") "now0" dbOrg).1,
   (post_events_collect_spec _ "u1" 1 "ip1" (fun _ => "e1") "now0" dbOrg).2
      (fun _ => false) 0 _ rfl rfl (fun k hk => absurd hk (by omega)) rfl⟩

end BW
